import Mathlib

/-
Shallow embedding of the car-cleaning marketplace backend
(`src/main.py`, `src/schemas.py`).

Modelling choices:
* Python floats that hold money are modelled as exact rationals `ℚ`; the
  spec and the repository reason about prices as exact decimal amounts.
* Python's built-in `round(x, 2)` rounds half to even; `round2` below
  implements round-half-to-even at two decimal places on `ℚ`.
* Stored MongoDB documents are duck-typed: readable fields that
  `main.py` accesses through `.get(key, default)` are modelled as
  `Option` fields, with the same defaults applied at the read site.
* The module `database.py` is imported by `main.py` but is not among the
  sources; its store handle `db`, `create_document` and `get_documents`
  are modelled from the spec's store contract (section 6) and are marked
  `Modelled from the spec:` below.  The handle `db` is an
  `Option Store`: `none` models the unconfigured/unreachable store.
* `bson.ObjectId(s)` accepts exactly the 24-character hexadecimal
  strings (normalising case) and raises `InvalidId` otherwise; the
  raised exception propagates out of `create_booking` uncaught, which we
  model with the error constructor `Err.invalidId`.
* FastAPI `HTTPException(status_code, detail)` is modelled by
  `Err.http status detail`.
-/

namespace Marketplace

/-- Round a rational to the nearest integer, ties to the even integer:
the tie-breaking rule used by Python's built-in `round`. -/
def roundHalfToEven (q : ℚ) : ℤ :=
  if q - ⌊q⌋ < 1/2 then ⌊q⌋
  else if 1/2 < q - ⌊q⌋ then ⌊q⌋ + 1
  else if ⌊q⌋ % 2 = 0 then ⌊q⌋ else ⌊q⌋ + 1

/-- Python's `round(q, 2)`: round to two decimal places, ties to even. -/
def round2 (q : ℚ) : ℚ :=
  (roundHalfToEven (q * 100) : ℚ) / 100

/-- A MongoDB ObjectId, identified by its 24-character lowercase hex
rendering (`str(oid)`). -/
structure BsonId where
  hex : String
deriving DecidableEq

/-- Whether a string is accepted by `bson.ObjectId(...)`: exactly 24
hexadecimal characters (either case). -/
def isValidObjectIdString (s : String) : Bool :=
  s.length == 24 &&
    s.toList.all fun c => c.isDigit || ('a' ≤ c && c ≤ 'f') || ('A' ≤ c && c ≤ 'F')

/-- The `bson.ObjectId` constructor on a string: `some` of the
case-normalised id when the string is a valid ObjectId, `none` when the
constructor raises `InvalidId`.  Case normalisation is written on the
character list (extensionally the same as `String.toLower`). -/
def mkObjectId (s : String) : Option BsonId :=
  if isValidObjectIdString s then some ⟨String.mk (s.data.map Char.toLower)⟩ else none

/-- A stored location sub-document (`schemas.Location` shape, duck-typed). -/
structure Loc where
  lat : Option ℚ := none
  lng : Option ℚ := none
  address : Option String := none
  city : Option String := none
deriving DecidableEq

/-- A stored service entry of a cleaner document (`schemas.ServiceOption`
shape, duck-typed: `main.py` reads `name` and `price` with `.get`). -/
structure StoredService where
  name : Option String := none
  description : Option String := none
  price : Option ℚ := none
  duration_minutes : Option ℤ := none
deriving DecidableEq

/-- A stored cleaner document (`schemas.Cleaner` shape, duck-typed as
`main.py` reads it with `.get`). -/
structure StoredCleaner where
  _id : BsonId
  name : Option String := none
  phone : Option String := none
  bio : Option String := none
  photo_url : Option String := none
  rating : Option ℚ := none
  total_reviews : Option ℤ := none
  is_available : Option Bool := none
  location : Option Loc := none
  services : Option (List StoredService) := none
  base_callout_fee : Option ℚ := none
deriving DecidableEq

/-- The embedded customer sub-document of a booking (`main.py` lines
199-203). -/
structure BookingCustomer where
  name : String
  phone : String
  email : Option String := none
deriving DecidableEq

/-- The embedded car sub-document of a booking (`main.py` lines 204-209). -/
structure CarDetails where
  make : Option String := none
  model : Option String := none
  color : Option String := none
  plate : Option String := none
deriving DecidableEq

/-- The embedded location sub-document of a booking (`main.py` lines
194-198). -/
structure BookingLocation where
  lat : Option ℚ := none
  lng : Option ℚ := none
  address : Option String := none
deriving DecidableEq

/-- A booking document as built by `create_booking` (`main.py` lines
189-218), parametric in the identifier type: stored bookings carry a
`BsonId`, listed bookings carry its string rendering. -/
structure BookingDoc (ι : Type) where
  _id : Option ι := none
  cleaner_id : String
  service_name : String
  service_price : ℚ
  scheduled_time : String
  location : BookingLocation
  customer : BookingCustomer
  car : CarDetails
  notes : Option String
  total_price : ℚ
  commission_rate : ℚ
  commission_amount : ℚ
  net_amount : ℚ
  status : String
  payment_status : String
  payment_reference : Option String
deriving DecidableEq

/-- Modelled from the spec: the document store behind `database.py`
(absent from the sources), holding the two collections named in
`schemas.py`: `cleaner` and `booking`. -/
structure Store where
  cleaners : List StoredCleaner
  bookings : List (BookingDoc BsonId)
deriving DecidableEq

/-- An error surfaced by a handler: either a `fastapi.HTTPException`
with its status code and detail, or the uncaught `bson.errors.InvalidId`
exception raised by `ObjectId(...)` on a malformed identifier string. -/
inductive Err where
  | http (status : ℕ) (detail : String)
  | invalidId (s : String)
deriving DecidableEq

/-- The request body of `POST /book` (`main.py` `CreateBookingRequest`).
It has no price field: the contract carries no client-supplied price. -/
structure CreateBookingRequest where
  cleaner_id : String
  service_name : String
  scheduled_time : String
  customer_name : String
  customer_phone : String
  customer_email : Option String := none
  address : Option String := none
  lat : Option ℚ := none
  lng : Option ℚ := none
  car_make : Option String := none
  car_model : Option String := none
  car_color : Option String := none
  car_plate : Option String := none
  notes : Option String := none
deriving DecidableEq

/-- The response shape of `GET /cleaners` (`main.py` `CleanerResponse`).
`services` surfaces the stored list verbatim; boundary re-validation by
pydantic is out of scope per the spec. -/
structure CleanerResponse where
  id : String
  name : Option String
  rating : ℚ
  total_reviews : ℤ
  is_available : Bool
  photo_url : Option String
  bio : Option String
  services : List StoredService
  location : Loc
  base_callout_fee : ℚ
deriving DecidableEq

/-- The response of a successful `POST /book` (`main.py` lines 222-228). -/
structure BookingReceipt where
  booking_id : String
  total_price : ℚ
  commission_amount : ℚ
  net_amount : ℚ
  message : String
deriving DecidableEq

/-- Modelled from the spec: `create_document("booking", doc)` from the
missing `database.py`, per the spec's `insert(collection, doc) -> id`
contract: a single insert of the document into the booking collection
that assigns a generated identifier and returns it. -/
def create_document_booking (st : Store) (doc : BookingDoc BsonId) : String × Store :=
  let oid : BsonId := ⟨String.append "generatedid" (toString st.bookings.length)⟩
  (oid.hex, { st with bookings := st.bookings ++ [{ doc with _id := some oid }] })

/-- Modelled from the spec: `get_documents("cleaner")` from the missing
`database.py`, per the spec's `findAll(collection) -> sequence of doc`
contract: every stored document of the collection. -/
def get_documents_cleaner (st : Store) : List StoredCleaner :=
  st.cleaners

/-- Modelled from the spec: `get_documents("booking")` from the missing
`database.py`, per the spec's `findAll(collection) -> sequence of doc`
contract: every stored document of the collection. -/
def get_documents_booking (st : Store) : List (BookingDoc BsonId) :=
  st.bookings

/-- The projection of a stored cleaner document into a `CleanerResponse`
(`main.py` lines 131-142), with the read-site defaults of `.get`. -/
def projectCleaner (d : StoredCleaner) : CleanerResponse :=
  { id := d._id.hex
    name := d.name
    rating := d.rating.getD 0
    total_reviews := d.total_reviews.getD 0
    is_available := d.is_available.getD true
    photo_url := d.photo_url
    bio := d.bio
    services := d.services.getD []
    location := d.location.getD {}
    base_callout_fee := d.base_callout_fee.getD 0 }

/-- The handler of `GET /cleaners` (`main.py` lines 122-143).  The
geographic query parameters are accepted but unused by the code. -/
def list_cleaners (db : Option Store) (lat lng : Option ℚ) (radius_km : ℚ) :
    Except Err (List CleanerResponse) :=
  match db, lat, lng, radius_km with
  | none, _, _, _ => .error (.http 500 "Database not configured")
  | some st, _, _, _ => .ok ((get_documents_cleaner st).map projectCleaner)

/-- The point lookup `db["cleaner"].find_one({"_id": oid})`: the first
stored cleaner whose `_id` equals the given ObjectId. -/
def findCleaner (cs : List StoredCleaner) (oid : BsonId) : Option StoredCleaner :=
  cs.find? fun c => c._id == oid

/-- The service-search loop of `create_booking` (`main.py` lines
173-177): the first entry of the list whose `name` is exactly the
requested service name. -/
def findService (services : List StoredService) (service_name : String) :
    Option StoredService :=
  services.find? fun s => s.name == some service_name

/-- Line 181: `service_price = float(service.get("price", 0))`. -/
def service_price_of (service : StoredService) : ℚ :=
  service.price.getD 0

/-- Line 182: `callout = float(cleaner.get("base_callout_fee", 0))`. -/
def callout_of (cleaner : StoredCleaner) : ℚ :=
  cleaner.base_callout_fee.getD 0

/-- Line 183: `total = service_price + callout`. -/
def total_of (service : StoredService) (cleaner : StoredCleaner) : ℚ :=
  service_price_of service + callout_of cleaner

/-- Line 185: the fixed commission rate literal `0.1`. -/
def commission_rate : ℚ := 1/10

/-- Line 186: `commission_amount = round(total * commission_rate, 2)`. -/
def commission_amount_of (service : StoredService) (cleaner : StoredCleaner) : ℚ :=
  round2 (total_of service cleaner * commission_rate)

/-- Line 187: `net_amount = round(total - commission_amount, 2)`. -/
def net_amount_of (service : StoredService) (cleaner : StoredCleaner) : ℚ :=
  round2 (total_of service cleaner - commission_amount_of service cleaner)

/-- Lines 189-218: the `booking_doc` dict built by `create_booking`. -/
def booking_doc_of (payload : CreateBookingRequest) (cleaner : StoredCleaner)
    (service : StoredService) : BookingDoc BsonId :=
  { cleaner_id := payload.cleaner_id
    service_name := payload.service_name
    service_price := service_price_of service
    scheduled_time := payload.scheduled_time
    location := { lat := payload.lat, lng := payload.lng, address := payload.address }
    customer := { name := payload.customer_name
                  phone := payload.customer_phone
                  email := payload.customer_email }
    car := { make := payload.car_make
             model := payload.car_model
             color := payload.car_color
             plate := payload.car_plate }
    notes := payload.notes
    total_price := total_of service cleaner
    commission_rate := commission_rate
    commission_amount := commission_amount_of service cleaner
    net_amount := net_amount_of service cleaner
    status := "pending"
    payment_status := "unpaid"
    payment_reference := none }

/-- The handler of `POST /book` (`main.py` lines 163-228).  Returns the
handler's outcome together with the resulting state of the store. -/
def create_booking (db : Option Store) (payload : CreateBookingRequest) :
    Except Err BookingReceipt × Option Store :=
  match db with
  | none => (.error (.http 500 "Database not configured"), none)
  | some st =>
    match mkObjectId payload.cleaner_id with
    | none => (.error (.invalidId payload.cleaner_id), some st)
    | some oid =>
      match findCleaner st.cleaners oid with
      | none => (.error (.http 404 "Cleaner not found"), some st)
      | some cleaner =>
        match findService (cleaner.services.getD []) payload.service_name with
        | none => (.error (.http 400 "Service not offered by cleaner"), some st)
        | some service =>
          let inserted := create_document_booking st (booking_doc_of payload cleaner service)
          (.ok { booking_id := inserted.1
                 total_price := total_of service cleaner
                 commission_amount := commission_amount_of service cleaner
                 net_amount := net_amount_of service cleaner
                 message := "Booking created. Proceed to payment to confirm." },
           some inserted.2)

/-- The identifier clean-up of `list_bookings` (`main.py` lines 237-238):
`d["_id"] = str(d["_id"]) if d.get("_id") else None`, every other field
untouched. -/
def BookingDoc.stringifyId (d : BookingDoc BsonId) : BookingDoc String :=
  { _id := d._id.map BsonId.hex
    cleaner_id := d.cleaner_id
    service_name := d.service_name
    service_price := d.service_price
    scheduled_time := d.scheduled_time
    location := d.location
    customer := d.customer
    car := d.car
    notes := d.notes
    total_price := d.total_price
    commission_rate := d.commission_rate
    commission_amount := d.commission_amount
    net_amount := d.net_amount
    status := d.status
    payment_status := d.payment_status
    payment_reference := d.payment_reference }

/-- The handler of `GET /bookings` (`main.py` lines 231-239). -/
def list_bookings (db : Option Store) : Except Err (List (BookingDoc String)) :=
  match db with
  | none => .error (.http 500 "Database not configured")
  | some st => .ok ((get_documents_booking st).map BookingDoc.stringifyId)

/-!  Basic facts about the rounding function.  -/

theorem roundHalfToEven_intCast (k : ℤ) : roundHalfToEven (k : ℚ) = k := by
  unfold roundHalfToEven
  rw [Int.floor_intCast]
  norm_num

theorem roundHalfToEven_nonneg {q : ℚ} (h : -(1/2) ≤ q) : 0 ≤ roundHalfToEven q := by
  have hfl : ((-1 : ℤ) : ℚ) ≤ (⌊q⌋ : ℚ) := by
    have : (-1 : ℤ) ≤ ⌊q⌋ := Int.le_floor.mpr (by push_cast; linarith)
    exact_mod_cast this
  have hfl' : (-1 : ℤ) ≤ ⌊q⌋ := by exact_mod_cast hfl
  unfold roundHalfToEven
  split_ifs with ha hb hc
  · have h1 : (-1 : ℚ) < (⌊q⌋ : ℚ) := by linarith
    have h2 : (-1 : ℤ) < ⌊q⌋ := by exact_mod_cast h1
    omega
  · omega
  · omega
  · omega

theorem abs_roundHalfToEven_sub_le (q : ℚ) : |(roundHalfToEven q : ℚ) - q| ≤ 1/2 := by
  have h2 : (⌊q⌋ : ℚ) ≤ q := Int.floor_le q
  have h3 : q < ⌊q⌋ + 1 := Int.lt_floor_add_one q
  unfold roundHalfToEven
  split_ifs with ha hb hc
  · rw [abs_le]; constructor <;> linarith
  · push_neg at ha; rw [abs_le]; push_cast; constructor <;> linarith
  · push_neg at ha hb; rw [abs_le]; constructor <;> linarith
  · push_neg at ha hb; rw [abs_le]; push_cast; constructor <;> linarith

theorem abs_round2_sub_le (q : ℚ) : |round2 q - q| ≤ 1/200 := by
  have h := abs_roundHalfToEven_sub_le (q * 100)
  have he : round2 q - q = ((roundHalfToEven (q * 100) : ℚ) - q * 100) / 100 := by
    unfold round2; ring
  rw [he, abs_div]
  rw [show |(100 : ℚ)| = 100 by norm_num]
  linarith

theorem round2_nonneg {q : ℚ} (h : -(1/200) ≤ q) : 0 ≤ round2 q := by
  unfold round2
  apply div_nonneg _ (by norm_num)
  have : (0 : ℤ) ≤ roundHalfToEven (q * 100) := roundHalfToEven_nonneg (by linarith)
  exact_mod_cast this

theorem round2_intCast_div (k : ℤ) : round2 ((k : ℚ) / 100) = (k : ℚ) / 100 := by
  unfold round2
  rw [show ((k : ℚ) / 100) * 100 = (k : ℚ) by ring, roundHalfToEven_intCast]

/-- The two-decimal rounding never moves the value by more than half a
cent downward: used to show the computed net amount is nonnegative. -/
theorem round2_le (q : ℚ) : round2 q ≤ q + 1/200 := by
  have h := abs_round2_sub_le q
  rw [abs_le] at h
  linarith [h.2]

/-!  Structural lemmas about `create_booking`.  -/

theorem create_booking_found (st : Store) (p : CreateBookingRequest) (oid : BsonId)
    (cleaner : StoredCleaner) (service : StoredService)
    (h1 : mkObjectId p.cleaner_id = some oid)
    (h2 : findCleaner st.cleaners oid = some cleaner)
    (h3 : findService (cleaner.services.getD []) p.service_name = some service) :
    create_booking (some st) p =
      (.ok { booking_id := (create_document_booking st (booking_doc_of p cleaner service)).1
             total_price := total_of service cleaner
             commission_amount := commission_amount_of service cleaner
             net_amount := net_amount_of service cleaner
             message := "Booking created. Proceed to payment to confirm." },
       some (create_document_booking st (booking_doc_of p cleaner service)).2) := by
  simp only [create_booking, h1, h2, h3]

theorem create_booking_ok_inv (st : Store) (p : CreateBookingRequest)
    (r : BookingReceipt) (db' : Option Store)
    (h : create_booking (some st) p = (.ok r, db')) :
    ∃ oid cleaner service,
      mkObjectId p.cleaner_id = some oid ∧
      findCleaner st.cleaners oid = some cleaner ∧
      findService (cleaner.services.getD []) p.service_name = some service ∧
      r = { booking_id := (create_document_booking st (booking_doc_of p cleaner service)).1
            total_price := total_of service cleaner
            commission_amount := commission_amount_of service cleaner
            net_amount := net_amount_of service cleaner
            message := "Booking created. Proceed to payment to confirm." } ∧
      db' = some (create_document_booking st (booking_doc_of p cleaner service)).2 := by
  simp only [create_booking] at h
  split at h
  · injection h with hx hy; exact Except.noConfusion hx
  · rename_i oid hA
    split at h
    · injection h with hx hy; exact Except.noConfusion hx
    · rename_i cleaner hB
      split at h
      · injection h with hx hy; exact Except.noConfusion hx
      · rename_i service hC
        injection h with hx hy
        injection hx with hr
        exact ⟨oid, cleaner, service, hA, hB, hC, hr.symm, hy.symm⟩

theorem findService_first_match (services : List StoredService) (n : String)
    (s : StoredService) (h : findService services n = some s) :
    ∃ pre post, services = pre ++ s :: post ∧ s.name = some n ∧
      ∀ t ∈ pre, t.name ≠ some n := by
  induction services with
  | nil => simp [findService] at h
  | cons x xs ih =>
    replace h : List.find? (fun t => t.name == some n) (x :: xs) = some s := h
    by_cases hx : (x.name == some n) = true
    · rw [List.find?_cons_of_pos (p := fun t => t.name == some n) xs hx] at h
      injection h with hxs
      subst hxs
      exact ⟨[], xs, rfl, beq_iff_eq.mp hx, by intro t ht; cases ht⟩
    · rw [List.find?_cons_of_neg (p := fun t => t.name == some n) xs hx] at h
      obtain ⟨pre, post, he, hn, hpre⟩ := ih h
      refine ⟨x :: pre, post, by rw [he]; rfl, hn, ?_⟩
      intro t ht
      rcases List.mem_cons.mp ht with rfl | htp
      · simpa using hx
      · exact hpre t htp

theorem create_booking_error_state (db : Option Store) (p : CreateBookingRequest)
    (e : Err) (db' : Option Store)
    (h : create_booking db p = (.error e, db')) : db' = db := by
  cases db with
  | none =>
    simp only [create_booking] at h
    injection h with hx hy
    exact hy.symm
  | some st =>
    simp only [create_booking] at h
    split at h
    · injection h with hx hy; exact hy.symm
    · split at h
      · injection h with hx hy; exact hy.symm
      · split at h
        · injection h with hx hy; exact hy.symm
        · injection h with hx hy; exact Except.noConfusion hx

/-!  Concrete fixtures, mirroring the demo data seeded by `main.py`. -/

/-- A stored service entry: `{"name": "Exterior Wash", "description":
"Foam wash & dry", "price": 25, "duration_minutes": 30}`. -/
def exteriorWash : StoredService :=
  { name := some "Exterior Wash", description := some "Foam wash & dry",
    price := some 25, duration_minutes := some 30 }

/-- A stored service entry: `{"name": "Full Detail", "price": 99}`. -/
def fullDetail : StoredService :=
  { name := some "Full Detail", description := some "In & Out premium detail",
    price := some 99, duration_minutes := some 120 }

/-- A stored service entry whose `price` field is absent. -/
def bareService : StoredService :=
  { name := some "Basic", description := none, price := none, duration_minutes := none }

/-- A stored cleaner with two services and a callout fee of 5. -/
def sparklePro : StoredCleaner :=
  { _id := ⟨"0123456789abcdef01234567"⟩
    name := some "Sparkle Pro Detailing"
    bio := some "Premium mobile car wash & detailing"
    rating := some 5
    total_reviews := some 128
    is_available := some true
    services := some [exteriorWash, fullDetail]
    base_callout_fee := some 5 }

/-- A stored cleaner document lacking both a `base_callout_fee` field and
a `price` on its only service. -/
def bareCleaner : StoredCleaner :=
  { _id := ⟨"aaaaaaaaaaaaaaaaaaaaaaaa"⟩
    name := some "Bare Hands Washing"
    services := some [bareService]
    base_callout_fee := none }

/-- A store holding the two fixture cleaners and no bookings. -/
def sampleStore : Store :=
  { cleaners := [sparklePro, bareCleaner], bookings := [] }

/-- A booking request against `sparklePro` for `"Exterior Wash"`. -/
def samplePayload : CreateBookingRequest :=
  { cleaner_id := "0123456789abcdef01234567"
    service_name := "Exterior Wash"
    scheduled_time := "2026-01-01T10:00:00Z"
    customer_name := "Ada"
    customer_phone := "+1-555-0000" }

/-- A booking request with a malformed cleaner identifier (not 24 hex
characters), on which `ObjectId(...)` raises `InvalidId`. -/
def badIdPayload : CreateBookingRequest :=
  { samplePayload with cleaner_id := "abc" }

/-- A booking request whose cleaner identifier is a well-formed ObjectId
that matches no stored cleaner. -/
def unknownPayload : CreateBookingRequest :=
  { samplePayload with cleaner_id := "ffffffffffffffffffffffff" }

/-- A booking request for `"exterior wash"`: differs from the stored
service name only by letter case. -/
def wrongCasePayload : CreateBookingRequest :=
  { samplePayload with service_name := "exterior wash" }

/-- A booking request against `bareCleaner` for its priceless service. -/
def barePayload : CreateBookingRequest :=
  { samplePayload with cleaner_id := "aaaaaaaaaaaaaaaaaaaaaaaa", service_name := "Basic" }

/-- The booking document `create_booking` persists for `samplePayload`. -/
def sampleBookingDoc : BookingDoc BsonId :=
  { _id := some ⟨"generatedid0"⟩
    cleaner_id := "0123456789abcdef01234567"
    service_name := "Exterior Wash"
    service_price := 25
    scheduled_time := "2026-01-01T10:00:00Z"
    location := { lat := none, lng := none, address := none }
    customer := { name := "Ada", phone := "+1-555-0000", email := none }
    car := { make := none, model := none, color := none, plate := none }
    notes := none
    total_price := 30
    commission_rate := 1/10
    commission_amount := 3
    net_amount := 27
    status := "pending"
    payment_status := "unpaid"
    payment_reference := none }

/-- The receipt `create_booking` returns for `samplePayload`. -/
def sampleReceipt : BookingReceipt :=
  { booking_id := "generatedid0", total_price := 30, commission_amount := 3,
    net_amount := 27, message := "Booking created. Proceed to payment to confirm." }

/-- The store after the sample booking is inserted. -/
def sampleStoreAfter : Store :=
  { cleaners := [sparklePro, bareCleaner], bookings := [sampleBookingDoc] }

theorem sample_resolution : mkObjectId samplePayload.cleaner_id = some ⟨"0123456789abcdef01234567"⟩ ∧
    findCleaner sampleStore.cleaners ⟨"0123456789abcdef01234567"⟩ = some sparklePro ∧
    findService (sparklePro.services.getD []) samplePayload.service_name = some exteriorWash := by
  refine ⟨by decide, by decide, by decide⟩

theorem sample_create_booking_eq :
    create_booking (some sampleStore) samplePayload = (.ok sampleReceipt, some sampleStoreAfter) := by
  rw [create_booking_found sampleStore samplePayload ⟨"0123456789abcdef01234567"⟩ sparklePro
    exteriorWash sample_resolution.1 sample_resolution.2.1 sample_resolution.2.2]
  have h30 : total_of exteriorWash sparklePro = 30 := by
    norm_num [total_of, service_price_of, callout_of, exteriorWash, sparklePro]
  have hc3 : commission_amount_of exteriorWash sparklePro = 3 := by
    rw [commission_amount_of, h30]
    norm_num [commission_rate, round2, roundHalfToEven]
  have hn27 : net_amount_of exteriorWash sparklePro = 27 := by
    rw [net_amount_of, h30, hc3]
    norm_num [round2, roundHalfToEven]
  simp only [create_document_booking, booking_doc_of, h30, hc3, hn27]
  norm_num [sampleStore, sampleStoreAfter, sampleReceipt, sampleBookingDoc, samplePayload,
    service_price_of, exteriorWash, commission_rate]
  decide

/-!  The claims.  -/

/-- C1: for every booking created by `create_booking` for a cleaner
record and a service entry found in that cleaner's services list, the
computed `total_price` equals `service.price + cleaner.base_callout_fee`
using only server-side stored values, `commission_amount` equals
`round(total_price * 0.10, 2)`, `net_amount` equals
`round(total_price - commission_amount, 2)`, and no client-supplied
field beyond the cleaner identity and service name influences any of the
three amounts (the request contract carries no price field at all). -/
theorem createBooking_server_side_pricing (st : Store) (p : CreateBookingRequest)
    (r : BookingReceipt) (db' : Option Store)
    (h : create_booking (some st) p = (.ok r, db')) :
    ∃ oid cleaner service,
      mkObjectId p.cleaner_id = some oid ∧
      findCleaner st.cleaners oid = some cleaner ∧
      findService (cleaner.services.getD []) p.service_name = some service ∧
      r.total_price = service.price.getD 0 + cleaner.base_callout_fee.getD 0 ∧
      r.commission_amount = round2 (r.total_price * (1/10)) ∧
      r.net_amount = round2 (r.total_price - r.commission_amount) ∧
      (∀ p' r' db2, p'.cleaner_id = p.cleaner_id → p'.service_name = p.service_name →
        create_booking (some st) p' = (.ok r', db2) →
        r'.total_price = r.total_price ∧ r'.commission_amount = r.commission_amount ∧
          r'.net_amount = r.net_amount) := by
  obtain ⟨oid, cleaner, service, hA, hB, hC, hr, hdb⟩ := create_booking_ok_inv st p r db' h
  subst hr
  refine ⟨oid, cleaner, service, hA, hB, hC, rfl, rfl, rfl, ?_⟩
  intro p' r' db2 he1 he2 h'
  obtain ⟨oid', cleaner', service', hA', hB', hC', hr', hdb'⟩ :=
    create_booking_ok_inv st p' r' db2 h'
  rw [he1, hA] at hA'
  injection hA' with ho
  subst ho
  rw [hB] at hB'
  injection hB' with hc
  subst hc
  rw [he2, hC] at hC'
  injection hC' with hs
  subst hs
  subst hr'
  exact ⟨rfl, rfl, rfl⟩

/-- Witness for C1 at the sample fixtures. -/
theorem createBooking_server_side_pricing_witness :
    ∃ oid cleaner service,
      mkObjectId samplePayload.cleaner_id = some oid ∧
      findCleaner sampleStore.cleaners oid = some cleaner ∧
      findService (cleaner.services.getD []) samplePayload.service_name = some service ∧
      sampleReceipt.total_price = service.price.getD 0 + cleaner.base_callout_fee.getD 0 ∧
      sampleReceipt.commission_amount = round2 (sampleReceipt.total_price * (1/10)) ∧
      sampleReceipt.net_amount =
        round2 (sampleReceipt.total_price - sampleReceipt.commission_amount) ∧
      (∀ p' r' db2, p'.cleaner_id = samplePayload.cleaner_id →
        p'.service_name = samplePayload.service_name →
        create_booking (some sampleStore) p' = (.ok r', db2) →
        r'.total_price = sampleReceipt.total_price ∧
          r'.commission_amount = sampleReceipt.commission_amount ∧
          r'.net_amount = sampleReceipt.net_amount) :=
  createBooking_server_side_pricing sampleStore samplePayload sampleReceipt
    (some sampleStoreAfter) sample_create_booking_eq

/-- C2: for every booking created by `create_booking`,
`commission_amount + net_amount` equals `total_price` up to the
half-cent absorbed by two-decimal rounding, and whenever the stored
service price and callout fee are nonnegative, all three amounts are
nonnegative. -/
theorem createBooking_money_invariants (st : Store) (p : CreateBookingRequest)
    (r : BookingReceipt) (db' : Option Store)
    (h : create_booking (some st) p = (.ok r, db')) :
    |r.commission_amount + r.net_amount - r.total_price| ≤ 1/200 ∧
    (∀ oid cleaner service,
      mkObjectId p.cleaner_id = some oid →
      findCleaner st.cleaners oid = some cleaner →
      findService (cleaner.services.getD []) p.service_name = some service →
      0 ≤ service.price.getD 0 → 0 ≤ cleaner.base_callout_fee.getD 0 →
      0 ≤ r.total_price ∧ 0 ≤ r.commission_amount ∧ 0 ≤ r.net_amount) := by
  obtain ⟨oid, cleaner, service, hA, hB, hC, hr, hdb⟩ := create_booking_ok_inv st p r db' h
  subst hr
  constructor
  · show |commission_amount_of service cleaner + net_amount_of service cleaner -
      total_of service cleaner| ≤ 1/200
    have heq : commission_amount_of service cleaner + net_amount_of service cleaner -
        total_of service cleaner =
        round2 (total_of service cleaner - commission_amount_of service cleaner) -
          (total_of service cleaner - commission_amount_of service cleaner) := by
      rw [net_amount_of]; ring
    rw [heq]
    exact abs_round2_sub_le _
  · intro oid' cleaner' service' hA' hB' hC' hp hf
    rw [hA] at hA'
    injection hA' with ho
    subst ho
    rw [hB] at hB'
    injection hB' with hc
    subst hc
    rw [hC] at hC'
    injection hC' with hs
    subst hs
    have htot : (0:ℚ) ≤ total_of service cleaner := add_nonneg hp hf
    refine ⟨htot, ?_, ?_⟩
    · show (0:ℚ) ≤ commission_amount_of service cleaner
      rw [commission_amount_of]
      apply round2_nonneg
      have hcr : (0:ℚ) ≤ total_of service cleaner * commission_rate :=
        mul_nonneg htot (by norm_num [commission_rate])
      linarith
    · show (0:ℚ) ≤ net_amount_of service cleaner
      rw [net_amount_of]
      apply round2_nonneg
      have h1 : commission_amount_of service cleaner ≤
          total_of service cleaner * commission_rate + 1/200 := by
        rw [commission_amount_of]; exact round2_le _
      have h2 : total_of service cleaner * commission_rate ≤ total_of service cleaner := by
        rw [commission_rate]; linarith
      linarith

/-- Witness for C2 at the sample fixtures. -/
theorem createBooking_money_invariants_witness :
    |sampleReceipt.commission_amount + sampleReceipt.net_amount -
      sampleReceipt.total_price| ≤ 1/200 ∧
    (∀ oid cleaner service,
      mkObjectId samplePayload.cleaner_id = some oid →
      findCleaner sampleStore.cleaners oid = some cleaner →
      findService (cleaner.services.getD []) samplePayload.service_name = some service →
      0 ≤ service.price.getD 0 → 0 ≤ cleaner.base_callout_fee.getD 0 →
      0 ≤ sampleReceipt.total_price ∧ 0 ≤ sampleReceipt.commission_amount ∧
        0 ≤ sampleReceipt.net_amount) :=
  createBooking_money_invariants sampleStore samplePayload sampleReceipt
    (some sampleStoreAfter) sample_create_booking_eq

/-- C5: every booking persisted by a successful `create_booking` has
status `"pending"`, payment_status `"unpaid"` and a null
payment_reference at creation time, for all inputs. -/
theorem createBooking_initial_status (st : Store) (p : CreateBookingRequest)
    (r : BookingReceipt) (db' : Option Store)
    (h : create_booking (some st) p = (.ok r, db')) :
    ∃ st' d, db' = some st' ∧ st'.bookings = st.bookings ++ [d] ∧
      d.status = "pending" ∧ d.payment_status = "unpaid" ∧ d.payment_reference = none := by
  obtain ⟨oid, cleaner, service, hA, hB, hC, hr, hdb⟩ := create_booking_ok_inv st p r db' h
  exact ⟨(create_document_booking st (booking_doc_of p cleaner service)).2,
    { booking_doc_of p cleaner service with
        _id := some ⟨String.append "generatedid" (toString st.bookings.length)⟩ },
    hdb, rfl, rfl, rfl, rfl⟩

/-- Witness for C5 at the sample fixtures. -/
theorem createBooking_initial_status_witness :
    ∃ st' d, some sampleStoreAfter = some st' ∧
      st'.bookings = sampleStore.bookings ++ [d] ∧
      d.status = "pending" ∧ d.payment_status = "unpaid" ∧ d.payment_reference = none :=
  createBooking_initial_status sampleStore samplePayload sampleReceipt
    (some sampleStoreAfter) sample_create_booking_eq

/-- C9: `create_booking`'s only effect on the store is a single append
to the booking collection on success; on any failure the store is
returned unchanged; the cleaner collection is never mutated. -/
theorem createBooking_single_insert_frame (db : Option Store) (p : CreateBookingRequest) :
    (∀ e db', create_booking db p = (.error e, db') → db' = db) ∧
    (∀ r db', create_booking db p = (.ok r, db') →
      ∃ st st' d, db = some st ∧ db' = some st' ∧
        st'.cleaners = st.cleaners ∧ st'.bookings = st.bookings ++ [d]) := by
  constructor
  · intro e db' h
    exact create_booking_error_state db p e db' h
  · intro r db' h
    cases db with
    | none =>
      simp only [create_booking] at h
      injection h with hx hy
      exact Except.noConfusion hx
    | some st =>
      obtain ⟨oid, cleaner, service, hA, hB, hC, hr, hdb⟩ := create_booking_ok_inv st p r db' h
      exact ⟨st, (create_document_booking st (booking_doc_of p cleaner service)).2,
        { booking_doc_of p cleaner service with
            _id := some ⟨String.append "generatedid" (toString st.bookings.length)⟩ },
        rfl, hdb, rfl, rfl⟩

/-- Witness for C9 at the sample fixtures. -/
theorem createBooking_single_insert_frame_witness :
    ∃ st st' d, some sampleStore = some st ∧ some sampleStoreAfter = some st' ∧
      st'.cleaners = st.cleaners ∧ st'.bookings = st.bookings ++ [d] :=
  (createBooking_single_insert_frame (some sampleStore) samplePayload).2 sampleReceipt
    (some sampleStoreAfter) sample_create_booking_eq

/-- C3 counterexample: the malformed identifier `"abc"` resolves to no
stored cleaner, yet `create_booking` fails with the uncaught `InvalidId`
exception raised by `ObjectId("abc")` — an error distinct from the
NotFound (404) error — so the claim that every unresolvable identifier
fails with NotFound is false on the code. -/
theorem createBooking_malformed_id_counterexample :
    create_booking (some sampleStore) badIdPayload =
      (.error (.invalidId "abc"), some sampleStore) ∧
    (∀ d, Err.invalidId "abc" ≠ Err.http 404 d) ∧
    (∀ c ∈ sampleStore.cleaners, c._id.hex ≠ "abc") := by
  refine ⟨?_, ?_, by decide⟩
  · have hm : mkObjectId badIdPayload.cleaner_id = none := by decide
    simp only [create_booking, hm]
    rfl
  · intro d hcontra
    exact Err.noConfusion hcontra

/-- C3 (amended): a well-formed cleaner identifier that resolves to no
stored cleaner fails with NotFound (404); a malformed identifier instead
raises the `InvalidId` exception (surfaced as a server error, not
NotFound); `create_booking` succeeds past resolution only when a stored
cleaner with that identity exists. -/
theorem createBooking_cleaner_resolution (st : Store) (p : CreateBookingRequest) :
    (mkObjectId p.cleaner_id = none →
      create_booking (some st) p = (.error (.invalidId p.cleaner_id), some st)) ∧
    (∀ oid, mkObjectId p.cleaner_id = some oid → findCleaner st.cleaners oid = none →
      create_booking (some st) p = (.error (.http 404 "Cleaner not found"), some st)) ∧
    (∀ r db', create_booking (some st) p = (.ok r, db') →
      ∃ oid cleaner, mkObjectId p.cleaner_id = some oid ∧
        findCleaner st.cleaners oid = some cleaner) := by
  refine ⟨?_, ?_, ?_⟩
  · intro hm
    simp only [create_booking, hm]
  · intro oid hm hf
    simp only [create_booking, hm, hf]
  · intro r db' h
    obtain ⟨oid, cleaner, service, hA, hB, hC, hr, hdb⟩ := create_booking_ok_inv st p r db' h
    exact ⟨oid, cleaner, hA, hB⟩

/-- Witness for the amended C3: a valid but unknown identifier yields
the NotFound error. -/
theorem createBooking_cleaner_resolution_witness :
    create_booking (some sampleStore) unknownPayload =
      (.error (.http 404 "Cleaner not found"), some sampleStore) :=
  (createBooking_cleaner_resolution sampleStore unknownPayload).2.1
    ⟨"ffffffffffffffffffffffff"⟩ (by decide) (by decide)

/-- C4: for a request against an existing cleaner, the service used for
pricing is the first entry of the cleaner's services list whose name is
exactly (case-sensitively) the requested name, and the request fails
with InvalidRequest (400, "Service not offered by cleaner") if and only
if no entry matches exactly. -/
theorem createBooking_service_match (st : Store) (p : CreateBookingRequest)
    (oid : BsonId) (cleaner : StoredCleaner)
    (hA : mkObjectId p.cleaner_id = some oid)
    (hB : findCleaner st.cleaners oid = some cleaner) :
    (create_booking (some st) p =
        (.error (.http 400 "Service not offered by cleaner"), some st) ↔
      ∀ s ∈ cleaner.services.getD [], s.name ≠ some p.service_name) ∧
    (∀ r db', create_booking (some st) p = (.ok r, db') →
      ∃ pre service post,
        cleaner.services.getD [] = pre ++ service :: post ∧
        service.name = some p.service_name ∧
        (∀ t ∈ pre, t.name ≠ some p.service_name) ∧
        r.total_price = service.price.getD 0 + cleaner.base_callout_fee.getD 0) := by
  constructor
  · constructor
    · intro heq s hs hname
      cases hF : findService (cleaner.services.getD []) p.service_name with
      | none =>
        replace hF : List.find? (fun t => t.name == some p.service_name)
            (cleaner.services.getD []) = none := hF
        exact List.find?_eq_none.mp hF s hs (beq_iff_eq.mpr hname)
      | some service =>
        have hok := create_booking_found st p oid cleaner service hA hB hF
        rw [heq] at hok
        injection hok with hx hy
        exact Except.noConfusion hx
    · intro hnone
      have hF : findService (cleaner.services.getD []) p.service_name = none :=
        List.find?_eq_none.mpr (fun x hx hbeq => hnone x hx (beq_iff_eq.mp hbeq))
      simp only [create_booking, hA, hB, hF]
  · intro r db' h
    obtain ⟨oid', cleaner', service, hA', hB', hC', hr, hdb⟩ :=
      create_booking_ok_inv st p r db' h
    rw [hA] at hA'
    injection hA' with ho
    subst ho
    rw [hB] at hB'
    injection hB' with hc
    subst hc
    obtain ⟨pre, post, hsplit, hname, hpre⟩ := findService_first_match _ _ _ hC'
    subst hr
    exact ⟨pre, service, post, hsplit, hname, hpre, rfl⟩

/-- Witness for C4: the same service name in different letter case is
not offered, and the request fails with the 400 error. -/
theorem createBooking_service_match_witness :
    create_booking (some sampleStore) wrongCasePayload =
      (.error (.http 400 "Service not offered by cleaner"), some sampleStore) :=
  (createBooking_service_match sampleStore wrongCasePayload
    ⟨"0123456789abcdef01234567"⟩ sparklePro (by decide) (by decide)).1.mpr (by decide)

/-- C10: when the stored cleaner document lacks a `base_callout_fee`
field, or the matched service entry lacks a `price` field,
`create_booking` treats the missing value as 0 and completes pricing
successfully rather than failing. -/
theorem createBooking_missing_fields_default (st : Store) (p : CreateBookingRequest)
    (oid : BsonId) (cleaner : StoredCleaner) (service : StoredService)
    (hA : mkObjectId p.cleaner_id = some oid)
    (hB : findCleaner st.cleaners oid = some cleaner)
    (hC : findService (cleaner.services.getD []) p.service_name = some service) :
    ∃ r db', create_booking (some st) p = (.ok r, db') ∧
      r.total_price = service.price.getD 0 + cleaner.base_callout_fee.getD 0 ∧
      (service.price = none → r.total_price = cleaner.base_callout_fee.getD 0) ∧
      (cleaner.base_callout_fee = none → r.total_price = service.price.getD 0) ∧
      (service.price = none → cleaner.base_callout_fee = none →
        r.total_price = 0 ∧ r.commission_amount = 0 ∧ r.net_amount = 0) := by
  refine ⟨_, _, create_booking_found st p oid cleaner service hA hB hC, rfl, ?_, ?_, ?_⟩
  · intro hp
    show total_of service cleaner = cleaner.base_callout_fee.getD 0
    rw [total_of, service_price_of, hp]
    simp [callout_of]
  · intro hf
    show total_of service cleaner = service.price.getD 0
    rw [total_of, callout_of, hf]
    simp [service_price_of]
  · intro hp hf
    have h0 : total_of service cleaner = 0 := by
      rw [total_of, service_price_of, callout_of, hp, hf]
      simp
    have hcz : commission_amount_of service cleaner = 0 := by
      rw [commission_amount_of, h0]
      norm_num [commission_rate, round2, roundHalfToEven]
    refine ⟨h0, hcz, ?_⟩
    show net_amount_of service cleaner = 0
    rw [net_amount_of, h0, hcz]
    norm_num [round2, roundHalfToEven]

/-- Witness for C10 at the fixtures with both fields absent. -/
theorem createBooking_missing_fields_default_witness :
    ∃ r db', create_booking (some sampleStore) barePayload = (.ok r, db') ∧
      r.total_price = bareService.price.getD 0 + bareCleaner.base_callout_fee.getD 0 ∧
      (bareService.price = none → r.total_price = bareCleaner.base_callout_fee.getD 0) ∧
      (bareCleaner.base_callout_fee = none → r.total_price = bareService.price.getD 0) ∧
      (bareService.price = none → bareCleaner.base_callout_fee = none →
        r.total_price = 0 ∧ r.commission_amount = 0 ∧ r.net_amount = 0) :=
  createBooking_missing_fields_default sampleStore barePayload
    ⟨"aaaaaaaaaaaaaaaaaaaaaaaa"⟩ bareCleaner bareService (by decide) (by decide) (by decide)

/-- C6: `list_cleaners` returns every stored cleaner regardless of the
geographic parameters, each projection carrying `photo_url` and `bio`
verbatim (null when absent) and the stored services, location and
callout fee with the read-site defaults; an empty store yields the empty
sequence rather than an error. -/
theorem listCleaners_returns_all (st : Store) (lat lng : Option ℚ) (radius_km : ℚ) :
    list_cleaners (some st) lat lng radius_km = .ok (st.cleaners.map projectCleaner) ∧
    (∀ d : StoredCleaner,
      (projectCleaner d).photo_url = d.photo_url ∧
      (projectCleaner d).bio = d.bio ∧
      (projectCleaner d).services = d.services.getD [] ∧
      (projectCleaner d).location = d.location.getD {} ∧
      (projectCleaner d).base_callout_fee = d.base_callout_fee.getD 0 ∧
      (projectCleaner d).id = d._id.hex) ∧
    list_cleaners (some { cleaners := [], bookings := [] }) lat lng radius_km = .ok [] :=
  ⟨rfl, fun _ => ⟨rfl, rfl, rfl, rfl, rfl, rfl⟩, rfl⟩

/-- C7: `list_bookings` returns every stored booking document with no
filtering, each with its generated identifier rendered as an opaque
string and every other field untouched. -/
theorem listBookings_returns_all (st : Store) :
    list_bookings (some st) = .ok (st.bookings.map BookingDoc.stringifyId) ∧
    (∀ d : BookingDoc BsonId,
      (BookingDoc.stringifyId d)._id = d._id.map BsonId.hex ∧
      (BookingDoc.stringifyId d).cleaner_id = d.cleaner_id ∧
      (BookingDoc.stringifyId d).service_name = d.service_name ∧
      (BookingDoc.stringifyId d).service_price = d.service_price ∧
      (BookingDoc.stringifyId d).scheduled_time = d.scheduled_time ∧
      (BookingDoc.stringifyId d).location = d.location ∧
      (BookingDoc.stringifyId d).customer = d.customer ∧
      (BookingDoc.stringifyId d).car = d.car ∧
      (BookingDoc.stringifyId d).notes = d.notes ∧
      (BookingDoc.stringifyId d).total_price = d.total_price ∧
      (BookingDoc.stringifyId d).commission_rate = d.commission_rate ∧
      (BookingDoc.stringifyId d).commission_amount = d.commission_amount ∧
      (BookingDoc.stringifyId d).net_amount = d.net_amount ∧
      (BookingDoc.stringifyId d).status = d.status ∧
      (BookingDoc.stringifyId d).payment_status = d.payment_status ∧
      (BookingDoc.stringifyId d).payment_reference = d.payment_reference) :=
  ⟨rfl, fun _ => ⟨rfl, rfl, rfl, rfl, rfl, rfl, rfl, rfl, rfl, rfl, rfl, rfl, rfl, rfl,
    rfl, rfl⟩⟩

/-- C8: with no configured store handle, each of the three handlers
fails immediately with the 500 "Database not configured" error; the
booking handler touches no store state. -/
theorem handlers_fail_without_store (lat lng : Option ℚ) (radius_km : ℚ)
    (p : CreateBookingRequest) :
    list_cleaners none lat lng radius_km = .error (.http 500 "Database not configured") ∧
    create_booking none p = (.error (.http 500 "Database not configured"), none) ∧
    list_bookings none = .error (.http 500 "Database not configured") :=
  ⟨rfl, rfl, rfl⟩

end Marketplace
